import Mathlib

/-!
Verification of the supervised relay bridge in `octoprint_obico/janus.py`.

The development shallowly embeds the parts of `JanusConn` that the
specification talks about:

* the message router `process_janus_msg` (JSON envelope classification and
  dispatch to the internal plugin handler or the remote-server sink);
* the websocket-link event handlers `on_message` / `on_close`, the
  `shutdown` method, `connected` and `pass_to_janus`, combined into a
  transition system `step` over `JanusConnState`;
* the gateway supervisor `run_janus_forever` (provisioning via `setup.sh`,
  the `run_janus` launch-and-drain loop, and its bounded retry wrapper).

Python JSON values are modelled by the inductive type `Json`; `json.loads`
is an external library call, so a raw inbound message is represented by the
pair of its raw text and its parse result (`Option Json`, `none` when
`json.loads` raises).  Python attribute errors raised by calling `.get` on a
non-dict are modelled with `Except Unit`.
-/

/-- A JSON value as produced by Python's `json.loads`.  Numbers are modelled
by `Int` (fractional parts never matter for the properties at hand); objects
keep their fields as a list, later duplicates winning on lookup as in
Python. -/
inductive Json where
  | null : Json
  | bool (b : Bool) : Json
  | num (n : Int) : Json
  | str (s : String) : Json
  | arr (elems : List Json) : Json
  | obj (fields : List (String × Json)) : Json
deriving Repr

/-- Python truthiness of a JSON-decoded value: `None`, `False`, `0`, `""`,
`[]` and `{}` are falsy, everything else truthy. -/
def pyTruthy : Json → Bool
  | .null => false
  | .bool b => b
  | .num n => n != 0
  | .str s => s != ""
  | .arr elems => !elems.isEmpty
  | .obj fields => !fields.isEmpty

/-- The value stored under key `k`, when the value is a JSON object that
has the key (last duplicate wins, as in Python's `json.loads`). -/
def keyVal? (j : Json) (k : String) : Option Json :=
  match j with
  | .obj fields => (fields.reverse.find? (fun p => p.1 == k)).map (fun p => p.2)
  | _ => none

/-- Python's `j.get(k, dflt)`: returns the stored value or the default on a
dict, raises `AttributeError` (modelled by `Except.error`) on anything
else. -/
def pyDictGet (j : Json) (k : String) (dflt : Json) : Except Unit Json :=
  match j with
  | .obj _ => .ok ((keyVal? j k).getD dflt)
  | _ => .error ()

/-- The chain
`msg.get('plugindata', {}).get('data', {}).get('thespaghettidetective', {})`
from `process_janus_msg` (janus.py line 157). -/
def get_to_plugin (msg : Json) : Except Unit Json :=
  match pyDictGet msg "plugindata" (Json.obj []) with
  | .error e => .error e
  | .ok plugindata =>
    match pyDictGet plugindata "data" (Json.obj []) with
    | .error e => .error e
    | .ok data => pyDictGet data "thespaghettidetective" (Json.obj [])

/-- Observable outcome of one `process_janus_msg` call: the payloads handed
to `client_conn.on_message_to_plugin`, the envelopes handed to
`plugin.send_ws_msg_to_server`, the number of `sentry.captureException`
calls, and the Python return value of the call (`Json.null` models
`None`). -/
structure RouterResult where
  plugin_msgs : List Json
  server_msgs : List Json
  crash_reports : Nat
  ret : Json
deriving Repr

/-- Body of `process_janus_msg` after a successful `json.loads`
(janus.py lines 157-167): a truthy `to_plugin` is handed to the internal
handler and the function returns `None`; otherwise the raw text is relayed
as `dict(janus=raw_msg)` and the function falls through, returning `None`.
An `AttributeError` from the `.get` chain is caught by the bare `except:`
(line 168), which only reports to sentry. -/
def route_parsed (raw_msg : String) (msg : Json) : RouterResult :=
  match get_to_plugin msg with
  | .error _ => ⟨[], [], 1, Json.null⟩
  | .ok to_plugin =>
    if pyTruthy to_plugin then
      ⟨[to_plugin], [], 0, Json.null⟩
    else
      ⟨[], [Json.obj [("janus", Json.str raw_msg)]], 0, Json.null⟩

/-- `JanusConn.process_janus_msg` (janus.py lines 151-169).  The second
argument is the result of `json.loads raw_msg`: `none` when parsing raises,
in which case the bare `except:` reports to sentry and the message is
dropped. -/
def process_janus_msg (raw_msg : String) : Option Json → RouterResult
  | none => ⟨[], [], 1, Json.null⟩
  | some msg => route_parsed raw_msg msg

/-- Spec-side notion used by the claims: the nested path
`plugindata.data.thespaghettidetective` is *present* in the envelope
(each level an object holding the key), yielding the stored value. -/
def nestedPathValue (msg : Json) : Option Json :=
  (keyVal? msg "plugindata").bind fun plugindata =>
    (keyVal? plugindata "data").bind fun data =>
      keyVal? data "thespaghettidetective"

/-- Modelled from the spec: `ExpoBackoff` lives in `utils.py`, which is not
part of the supervised source.  Spec §4.1 (BackoffPolicy): `more()` records a
failure and advances `attempt_count`; `reset()` clears it to zero;
`exhausted()` is true once `attempt_count ≥ max_attempts`.  Delay timing is
not modelled. -/
structure ExpoBackoff where
  max_attempts : Nat
  attempt_count : Nat
deriving Repr

def ExpoBackoff.more (b : ExpoBackoff) : ExpoBackoff :=
  { b with attempt_count := b.attempt_count + 1 }

def ExpoBackoff.reset (b : ExpoBackoff) : ExpoBackoff :=
  { b with attempt_count := 0 }

/-- Modelled from the spec: `WebSocketClient` lives in `ws.py`, which is not
part of the supervised source.  Spec §3 (RelayLink): a websocket transport
with a `connected` flag and a `send` operation; created fresh on every
(re)connect. -/
structure WsState where
  connected : Bool
  sent : List String
deriving Repr

/-- The fresh link created by `start_janus_ws` (janus.py lines 128-133). -/
def freshWs : WsState := { connected := true, sent := [] }

/-- The observable state of a `JanusConn` instance together with ghost
counters for the externally visible actions the claims count.
`connect_attempts` counts `start_janus_ws` invocations, `launch_attempts`
counts `subprocess.Popen(run.sh)` calls, `run_tries` the invocations of
`run_janus` consumed from its `max_tries=5` retry budget, and
`crash_reports` / `alerts` the `sentry.captureException` /
`alert_queue.add_alert` calls of the supervisor. -/
structure JanusConnState where
  shutting_down : Bool
  janus_ws : Option WsState
  janus_ws_backoff : ExpoBackoff
  janus_proc : Bool
  num_line_output : Nat
  run_tries : Nat
  connect_attempts : Nat
  launch_attempts : Nat
  crash_reports : Nat
  alerts : Nat
  plugin_msgs : List Json
  server_msgs : List Json
deriving Repr

/-- Events delivered to a `JanusConn`: the websocket callbacks (`on_close`,
`on_message` with the raw text and its `json.loads` result), one iteration
of the `run_janus` output-drain loop reading one line (`""` models the empty
read at process EOF), and a `shutdown()` call. -/
inductive Event where
  | wsClose : Event
  | wsMessage (raw_msg : String) (parsed : Option Json) : Event
  | drainIter (line : String) : Event
  | shutdownCall : Event

/-- Record the router's observable effects on the connection state and apply
`on_message`'s `if self.process_janus_msg(msg): self.janus_ws_backoff.reset()`
(janus.py lines 124-126) to the Python return value. -/
def applyRouter (st : JanusConnState) (r : RouterResult) : JanusConnState :=
  let st := { st with
    plugin_msgs := st.plugin_msgs ++ r.plugin_msgs
    server_msgs := st.server_msgs ++ r.server_msgs
    crash_reports := st.crash_reports + r.crash_reports }
  if pyTruthy r.ret then { st with janus_ws_backoff := st.janus_ws_backoff.reset } else st

/-- One event of the `JanusConn` transition system.

* `shutdownCall` — `shutdown()` (lines 135-149): sets `shutting_down`,
  closes and clears the link, terminates (best-effort) and clears the
  process.
* `wsClose` — `on_close` (lines 118-122): always records a failure on the
  link backoff; if not shutting down, calls `start_janus_ws` again, which
  installs a fresh link.
* `wsMessage` — `on_message` (lines 124-126) via `process_janus_msg`.
* `drainIter` — one iteration of the `while not self.shutting_down` loop of
  `run_janus` (lines 71-79).  When the flag is set the loop exits and
  `run_janus` returns, so nothing happens.  A non-empty line with fewer than
  1000 lines logged is logged.  Otherwise the `elif not self.shutting_down`
  branch raises; the `backoff.on_exception(..., max_tries=5)` decorator
  (line 65) then either relaunches `run_janus` (a fresh `Popen`, line 69) or,
  once 5 tries are spent, lets the exception escape to the
  `except Exception` handler of `run_janus_forever` (lines 86-95), which
  reports to sentry and enqueues one alert. -/
def step (st : JanusConnState) : Event → JanusConnState
  | .shutdownCall =>
    { st with shutting_down := true, janus_ws := none, janus_proc := false }
  | .wsClose =>
    let st := { st with janus_ws_backoff := st.janus_ws_backoff.more }
    if st.shutting_down then st
    else { st with connect_attempts := st.connect_attempts + 1, janus_ws := some freshWs }
  | .wsMessage raw_msg parsed => applyRouter st (process_janus_msg raw_msg parsed)
  | .drainIter line =>
    if st.shutting_down then st
    else if line != "" && st.num_line_output < 1000 then
      { st with num_line_output := st.num_line_output + 1 }
    else if st.run_tries < 5 then
      { st with run_tries := st.run_tries + 1, launch_attempts := st.launch_attempts + 1,
                num_line_output := 0, janus_proc := true }
    else
      { st with crash_reports := st.crash_reports + 1, alerts := st.alerts + 1,
                janus_proc := false }

/-- Run a sequence of events. -/
def run (st : JanusConnState) (evs : List Event) : JanusConnState :=
  evs.foldl step st

/-- `JanusConn.connected` (janus.py lines 104-105). -/
def JanusConnState.connected (st : JanusConnState) : Bool :=
  match st.janus_ws with
  | none => false
  | some ws => ws.connected

/-- `JanusConn.pass_to_janus` (janus.py lines 107-109): sends on the link
only when connected, otherwise does nothing. -/
def pass_to_janus (st : JanusConnState) (msg : String) : JanusConnState :=
  if st.connected then
    match st.janus_ws with
    | some ws => { st with janus_ws := some { ws with sent := ws.sent ++ [msg] } }
    | none => st
  else st

/-- Outcome of the `run_janus` drain loop (janus.py lines 71-79) with the
`shutting_down` flag held fixed: either the loop exited normally (flag was
set) or the `elif` branch raised, in both cases after logging
`logged` lines. -/
inductive DrainResult where
  | exited (logged : Nat) : DrainResult
  | raised (logged : Nat) : DrainResult
deriving Repr, DecidableEq

/-- The `while not self.shutting_down` loop of `run_janus`, reading the
given line sequence (`""` is the empty read returned at process EOF).
Returns `none` when the trace ends before the loop decides anything. -/
def run_janus_drain (shutting_down : Bool) (num_line_output : Nat) :
    List String → Option DrainResult
  | [] => if shutting_down then some (.exited num_line_output) else none
  | line :: rest =>
    if shutting_down then some (.exited num_line_output)
    else if line != "" && num_line_output < 1000 then
      run_janus_drain shutting_down (num_line_output + 1) rest
    else some (.raised num_line_output)

/-- Whether `run_janus` (with its retry wrapper) returned normally or let
the final exception propagate to `run_janus_forever`. -/
inductive RunOutcome where
  | returned : RunOutcome
  | raisedOut : RunOutcome
deriving Repr, DecidableEq

/-- `run_janus` under `backoff.on_exception(backoff.expo, Exception,
max_tries=5)` (janus.py lines 65-79).  `tries_left` is the remaining call
budget (5 initially); each list element is the line trace drained by one
launch.  Returns the number of launches performed and whether the exception
escaped; `none` when the supplied traces do not determine the outcome. -/
def run_janus_retries (shutting_down : Bool) :
    Nat → List (List String) → Option (Nat × RunOutcome)
  | 0, _ => some (0, .raisedOut)
  | _ + 1, [] => none
  | tries_left + 1, lines :: rest =>
    match run_janus_drain shutting_down 0 lines with
    | none => none
    | some (.exited _) => some (1, .returned)
    | some (.raised _) =>
      match run_janus_retries shutting_down tries_left rest with
      | none => none
      | some (n, o) => some (n + 1, o)

/-- Observable outcome of one `run_janus_forever` execution. -/
structure ForeverResult where
  launches : Nat
  crash_reports : Nat
  alerts : Nat
  warned_not_supported : Bool
deriving Repr, DecidableEq

/-- `run_janus_forever` (janus.py lines 49-95): `setup_janus_config` raises
`JanusNotSupportedException` when `setup.sh` exits non-zero (lines 62-63),
which the dedicated `except JanusNotSupportedException` handler (lines
84-85) only logs — no launch, no sentry report, no alert.  Otherwise
`run_janus` runs under its retry wrapper; if the exception escapes after the
retry budget, the `except Exception` handler (lines 86-95) reports to sentry
once and enqueues one alert.  Either way the function returns without
re-raising. -/
def run_janus_forever (setup_returncode : Int) (shutting_down : Bool)
    (scenarios : List (List String)) : Option ForeverResult :=
  if setup_returncode != 0 then
    some { launches := 0, crash_reports := 0, alerts := 0, warned_not_supported := true }
  else
    match run_janus_retries shutting_down 5 scenarios with
    | none => none
    | some (n, .returned) =>
      some { launches := n, crash_reports := 0, alerts := 0, warned_not_supported := false }
    | some (n, .raisedOut) =>
      some { launches := n, crash_reports := 1, alerts := 1, warned_not_supported := false }

example : process_janus_msg "x" (some (Json.obj [])) =
    ⟨[], [Json.obj [("janus", Json.str "x")]], 0, Json.null⟩ := by rfl

example : process_janus_msg "x" (some (Json.str "hi")) = ⟨[], [], 1, Json.null⟩ := by rfl

example :
    process_janus_msg "x"
      (some (Json.obj [("plugindata", Json.obj [("data",
        Json.obj [("thespaghettidetective", Json.num 3)])])])) =
    ⟨[Json.num 3], [], 0, Json.null⟩ := by rfl

/-- A concrete connection state used by witnesses: not shutting down, no
link, backoff as constructed in `JanusConn.__init__` (line 37). -/
def baseState : JanusConnState :=
  { shutting_down := false, janus_ws := none, janus_ws_backoff := ⟨20, 0⟩,
    janus_proc := false, num_line_output := 0, run_tries := 0,
    connect_attempts := 0, launch_attempts := 0, crash_reports := 0,
    alerts := 0, plugin_msgs := [], server_msgs := [] }

/-- The state after `shutdown()` from `baseState`. -/
def shutdownState : JanusConnState := { baseState with shutting_down := true }

/-- Once `shutting_down` is set, a single event keeps it set and leaves the
reconnect and relaunch counters untouched. -/
theorem step_shutdown_invariant (st : JanusConnState) (e : Event)
    (h : st.shutting_down = true) :
    (step st e).shutting_down = true ∧
    (step st e).connect_attempts = st.connect_attempts ∧
    (step st e).launch_attempts = st.launch_attempts := by
  cases e with
  | shutdownCall => simp [step]
  | wsClose => simp [step, h]
  | wsMessage raw_msg parsed =>
    simp only [step, applyRouter]
    split <;> simp [h]
  | drainIter line => simp [step, h]

/-- C4: after `shutdown()` has set `shutting_down`, no event sequence —
close callbacks, drain-loop iterations, messages, repeated shutdowns — ever
initiates another relay-link connect or another gateway-process launch. -/
theorem no_reconnect_or_relaunch_after_shutdown (st : JanusConnState)
    (h : st.shutting_down = true) (evs : List Event) :
    (run st evs).connect_attempts = st.connect_attempts ∧
    (run st evs).launch_attempts = st.launch_attempts := by
  induction evs generalizing st with
  | nil => exact ⟨rfl, rfl⟩
  | cons e rest ih =>
    obtain ⟨h1, h2, h3⟩ := step_shutdown_invariant st e h
    obtain ⟨ih1, ih2⟩ := ih (step st e) h1
    refine ⟨?_, ?_⟩
    · calc (run st (e :: rest)).connect_attempts
          = (run (step st e) rest).connect_attempts := rfl
        _ = (step st e).connect_attempts := ih1
        _ = st.connect_attempts := h2
    · calc (run st (e :: rest)).launch_attempts
          = (run (step st e) rest).launch_attempts := rfl
        _ = (step st e).launch_attempts := ih2
        _ = st.launch_attempts := h3

/-- C4 witness: a concrete post-shutdown state and event sequence. -/
theorem no_reconnect_or_relaunch_after_shutdown_witness :
    (run shutdownState
        [.wsClose, .drainIter "x", .drainIter "", .wsMessage "a" none,
         .shutdownCall, .wsClose]).connect_attempts
      = shutdownState.connect_attempts ∧
    (run shutdownState
        [.wsClose, .drainIter "x", .drainIter "", .wsMessage "a" none,
         .shutdownCall, .wsClose]).launch_attempts
      = shutdownState.launch_attempts :=
  no_reconnect_or_relaunch_after_shutdown shutdownState rfl
    [.wsClose, .drainIter "x", .drainIter "", .wsMessage "a" none,
     .shutdownCall, .wsClose]

/-- C5: a link close event while not shutting down records exactly one
failure on the link's backoff policy and initiates exactly one reconnect,
installing a fresh link. -/
theorem close_reconnects_once (st : JanusConnState)
    (h : st.shutting_down = false) :
    (step st .wsClose).janus_ws_backoff.attempt_count
      = st.janus_ws_backoff.attempt_count + 1 ∧
    (step st .wsClose).connect_attempts = st.connect_attempts + 1 ∧
    (step st .wsClose).janus_ws = some freshWs := by
  simp [step, h, ExpoBackoff.more]

/-- C5 witness: one close on a concrete live state. -/
theorem close_reconnects_once_witness :
    (step baseState .wsClose).janus_ws_backoff.attempt_count
      = baseState.janus_ws_backoff.attempt_count + 1 ∧
    (step baseState .wsClose).connect_attempts = baseState.connect_attempts + 1 ∧
    (step baseState .wsClose).janus_ws = some freshWs :=
  close_reconnects_once baseState rfl

/-- C6: an inbound message whose `json.loads` fails produces exactly one
crash report and changes nothing else — no dispatch to either sink, no
propagated exception (the step is total), and the link's connected status
is untouched. -/
theorem malformed_message_one_crash_report (st : JanusConnState)
    (raw_msg : String) :
    step st (.wsMessage raw_msg none)
      = { st with crash_reports := st.crash_reports + 1 } ∧
    (step st (.wsMessage raw_msg none)).connected = st.connected := by
  have h1 : step st (.wsMessage raw_msg none)
      = { st with crash_reports := st.crash_reports + 1 } := by
    cases st
    simp [step, applyRouter, process_janus_msg, pyTruthy]
  exact ⟨h1, by rw [h1]; rfl⟩

/-- C9: `pass_to_janus` on a state that is not connected (no link, or a
link whose transport reports not connected) is a no-op. -/
theorem send_not_connected_noop (st : JanusConnState) (msg : String)
    (h : st.connected = false) : pass_to_janus st msg = st := by
  simp [pass_to_janus, h]

/-- C9 witness: sending with no link present. -/
theorem send_not_connected_noop_witness :
    pass_to_janus baseState "hello" = baseState :=
  send_not_connected_noop baseState "hello" rfl

/-- A connection state with three recorded backoff failures and a live
link, about to receive a relay message. -/
def c1State : JanusConnState :=
  { baseState with janus_ws := some freshWs, janus_ws_backoff := ⟨20, 3⟩ }

/-- C1: evaluation at the failing input.  The raw message `{}` parses, lacks
`plugindata.data.thespaghettidetective`, and is relayed to the remote-server
sink — a successfully routed relay message — yet the backoff attempt count
stays at 3 instead of resetting to 0: `process_janus_msg` always returns
`None` (its `return` on line 163 and the fall-through both yield `None`), so
the guard `if self.process_janus_msg(msg):` in `on_message` (line 125) never
fires and `janus_ws_backoff.reset()` is dead code. -/
theorem relay_message_leaves_backoff_unreset :
    (step c1State (.wsMessage "\x7b\x7d" (some (Json.obj [])))).server_msgs
      = [Json.obj [("janus", Json.str "\x7b\x7d")]] ∧
    (step c1State (.wsMessage "\x7b\x7d" (some (Json.obj [])))).plugin_msgs = [] ∧
    (step c1State
        (.wsMessage "\x7b\x7d" (some (Json.obj [])))).janus_ws_backoff.attempt_count
      = 3 :=
  ⟨rfl, rfl, rfl⟩

/-- If a key is present in a JSON object, Python's `.get` returns its value
regardless of the default. -/
theorem pyDictGet_of_keyVal (j : Json) (k : String) (dflt v : Json)
    (h : keyVal? j k = some v) : pyDictGet j k dflt = .ok v := by
  cases j with
  | obj fields =>
    unfold pyDictGet
    rw [h]
    rfl
  | null => exact Option.noConfusion h
  | bool b => exact Option.noConfusion h
  | num n => exact Option.noConfusion h
  | str s => exact Option.noConfusion h
  | arr elems => exact Option.noConfusion h

/-- When the nested path is present, the `.get` chain of the source yields
exactly the stored value. -/
theorem get_to_plugin_of_nestedPath (msg v : Json)
    (h : nestedPathValue msg = some v) : get_to_plugin msg = .ok v := by
  unfold nestedPathValue at h
  obtain ⟨plugindata, hpd, h⟩ := Option.bind_eq_some.mp h
  obtain ⟨data, hd, h⟩ := Option.bind_eq_some.mp h
  unfold get_to_plugin
  simp only [pyDictGet_of_keyVal msg "plugindata" (Json.obj []) plugindata hpd,
    pyDictGet_of_keyVal plugindata "data" (Json.obj []) data hd,
    pyDictGet_of_keyVal data "thespaghettidetective" (Json.obj []) v h]

/-- The raw text of a parseable envelope whose
`plugindata.data.thespaghettidetective` is present but holds the falsy
value `{}`. -/
def c2Raw : String :=
  "\x7b\"plugindata\": \x7b\"data\": \x7b\"thespaghettidetective\": \x7b\x7d\x7d\x7d\x7d"

/-- `json.loads c2Raw`. -/
def c2Msg : Json :=
  Json.obj [("plugindata", Json.obj [("data",
    Json.obj [("thespaghettidetective", Json.obj [])])])]

/-- C2 counterexample: this envelope *contains* the nested path
`plugindata.data.thespaghettidetective`, yet the code hands nothing to the
internal handler and forwards the message to the remote-server sink —
classification is by truthiness of the stored value, not presence. -/
theorem present_falsy_path_is_relayed :
    (nestedPathValue c2Msg).isSome = true ∧
    (process_janus_msg c2Raw (some c2Msg)).plugin_msgs = [] ∧
    (process_janus_msg c2Raw (some c2Msg)).server_msgs
      = [Json.obj [("janus", Json.str c2Raw)]] ∧
    (process_janus_msg c2Raw (some c2Msg)).server_msgs ≠ [] :=
  ⟨rfl, rfl, rfl, by
    simp [show (process_janus_msg c2Raw (some c2Msg)).server_msgs
      = [Json.obj [("janus", Json.str c2Raw)]] from rfl]⟩

/-- C2 amended: for every parseable message on which the source's `.get`
chain succeeds with value `v`: if `v` is truthy, the inner payload goes only
to the internal handler and nothing to the remote-server sink; if `v` is
falsy (absent path included), the original raw text is forwarded wrapped as
`janus: raw` and nothing goes to the internal handler.  When the chain
raises (an intermediate level is present but not an object), the message is
dropped with one crash report. -/
theorem truthiness_classifies_messages (raw_msg : String) (msg : Json) :
    (∀ v, get_to_plugin msg = .ok v → pyTruthy v = true →
      process_janus_msg raw_msg (some msg) = ⟨[v], [], 0, Json.null⟩) ∧
    (∀ v, get_to_plugin msg = .ok v → pyTruthy v = false →
      process_janus_msg raw_msg (some msg)
        = ⟨[], [Json.obj [("janus", Json.str raw_msg)]], 0, Json.null⟩) ∧
    (∀ e, get_to_plugin msg = .error e →
      process_janus_msg raw_msg (some msg) = ⟨[], [], 1, Json.null⟩) := by
  refine ⟨?_, ?_, ?_⟩
  · intro v hv ht
    simp [process_janus_msg, route_parsed, hv, ht]
  · intro v hv ht
    simp [process_janus_msg, route_parsed, hv, ht]
  · intro e he
    simp [process_janus_msg, route_parsed, he]

/-- C2 witness: a truthy payload is routed to the internal handler only. -/
theorem truthiness_classifies_messages_witness :
    process_janus_msg "w" (some (Json.obj [("plugindata", Json.obj [("data",
        Json.obj [("thespaghettidetective", Json.bool true)])])]))
      = ⟨[Json.bool true], [], 0, Json.null⟩ :=
  (truthiness_classifies_messages "w"
      (Json.obj [("plugindata", Json.obj [("data",
        Json.obj [("thespaghettidetective", Json.bool true)])])])).1
    (Json.bool true) rfl rfl

/-- C10: a parseable message whose `plugindata.data.thespaghettidetective`
path is present but holds a falsy value is classified as a relay message:
it is forwarded to the remote-server sink wrapped as `janus: raw` and the
internal handler is never invoked. -/
theorem falsy_path_value_is_relayed (raw_msg : String) (msg v : Json)
    (hpresent : nestedPathValue msg = some v) (hfalsy : pyTruthy v = false) :
    process_janus_msg raw_msg (some msg)
      = ⟨[], [Json.obj [("janus", Json.str raw_msg)]], 0, Json.null⟩ ∧
    (process_janus_msg raw_msg (some msg)).plugin_msgs = [] := by
  have hget := get_to_plugin_of_nestedPath msg v hpresent
  refine ⟨?_, ?_⟩ <;> simp [process_janus_msg, route_parsed, hget, hfalsy]

/-- C10 witness: the path holds the falsy value `0`. -/
theorem falsy_path_value_is_relayed_witness :
    process_janus_msg "w0" (some (Json.obj [("plugindata", Json.obj [("data",
        Json.obj [("thespaghettidetective", Json.num 0)])])]))
      = ⟨[], [Json.obj [("janus", Json.str "w0")]], 0, Json.null⟩ :=
  (falsy_path_value_is_relayed "w0"
      (Json.obj [("plugindata", Json.obj [("data",
        Json.obj [("thespaghettidetective", Json.num 0)])])])
      (Json.num 0) rfl rfl).1

/-- Shared helper: when `setup.sh` exits non-zero, `setup_janus_config`
raises `JanusNotSupportedException` before `run_janus` is ever called, and
the dedicated handler only logs — no launch, no crash report, no alert. -/
theorem run_janus_forever_nonzero_setup (rc : Int) (h : rc ≠ 0)
    (shutting_down : Bool) (scenarios : List (List String)) :
    run_janus_forever rc shutting_down scenarios
      = some { launches := 0, crash_reports := 0, alerts := 0,
               warned_not_supported := true } := by
  unfold run_janus_forever
  rw [if_pos (by simpa using h)]

/-- C3 counterexample: provisioning exits with code 1.  The supervisor logs
and returns with zero launches — but also zero alerts, not the one alert
the claim requires. -/
theorem provisioning_failure_enqueues_no_alert :
    run_janus_forever 1 false []
      = some { launches := 0, crash_reports := 0, alerts := 0,
               warned_not_supported := true } ∧
    (run_janus_forever 1 false []).map ForeverResult.alerts ≠ some 1 :=
  ⟨rfl, by decide⟩

/-- C3 amended: when the provisioning step exits non-zero, the supervisor
logs the failure and returns without engaging the process-relaunch backoff
(no launch attempt occurs), and neither a crash report nor a degraded-mode
user alert is emitted for this failure. -/
theorem provisioning_failure_logs_and_returns (rc : Int) (h : rc ≠ 0)
    (shutting_down : Bool) (scenarios : List (List String)) :
    run_janus_forever rc shutting_down scenarios
      = some { launches := 0, crash_reports := 0, alerts := 0,
               warned_not_supported := true } :=
  run_janus_forever_nonzero_setup rc h shutting_down scenarios

/-- C3 witness: exit code 1. -/
theorem provisioning_failure_logs_and_returns_witness :
    run_janus_forever 1 true []
      = some { launches := 0, crash_reports := 0, alerts := 0,
               warned_not_supported := true } :=
  provisioning_failure_logs_and_returns 1 (by decide) true []

/-- While not shutting down, draining `k` further non-empty lines with `n`
lines already logged raises after the log counter reaches 1000, provided
the trace reaches past the cap. -/
theorem drain_replicate_raises (k : Nat) : ∀ n : Nat, n + k = 1001 → n ≤ 1000 →
    run_janus_drain false n (List.replicate k "x") = some (.raised 1000) := by
  induction k with
  | zero =>
    intro n h1 h2
    omega
  | succ k ih =>
    intro n h1 h2
    by_cases hn : n < 1000
    · have hstep : run_janus_drain false n (List.replicate (k + 1) "x")
          = run_janus_drain false (n + 1) (List.replicate k "x") := by
        rw [List.replicate_succ]
        simp [run_janus_drain, hn, show ("x" != "") = true from rfl]
      rw [hstep]
      exact ih (n + 1) (by omega) (by omega)
    · have h1000 : n = 1000 := by omega
      subst h1000
      rw [List.replicate_succ]
      simp [run_janus_drain, show ("x" != "") = true from rfl]

/-- C7: evaluation at the failing input.  With `shutting_down` false and the
gateway emitting 1001 non-empty lines, the drain loop logs the first 1000
and then, on the 1001st non-empty line, takes the
`elif not self.shutting_down` branch and raises — the line is not discarded
without effect.  The second conjunct shows the EOF part of the claim: an
empty read while not shutting down raises the retryable failure. -/
theorem drain_raises_on_line_after_cap :
    run_janus_drain false 0 (List.replicate 1001 "x")
      = some (.raised 1000) ∧
    run_janus_drain false 0 [""] = some (.raised 0) :=
  ⟨drain_replicate_raises 1001 0 rfl (by omega), rfl⟩

/-- One raising launch consumes one retry: `backoff.on_exception` calls
`run_janus` again on the remaining budget. -/
theorem run_janus_retries_raised (shutting_down : Bool) (tries_left : Nat)
    (lines : List String) (rest : List (List String)) (n : Nat)
    (h : run_janus_drain shutting_down 0 lines = some (.raised n)) :
    run_janus_retries shutting_down (tries_left + 1) (lines :: rest)
      = (run_janus_retries shutting_down tries_left rest).map
          (fun p => (p.1 + 1, p.2)) := by
  simp only [run_janus_retries, h]
  rcases run_janus_retries shutting_down tries_left rest with _ | ⟨a, b⟩ <;> rfl

/-- C8: with provisioning succeeding and five consecutive launches whose
drain raises (unexpected gateway exits) while not shutting down, the retry
wrapper performs exactly 5 launches (its `max_tries=5` cap), then the
exception escapes to `run_janus_forever`, which emits exactly one crash
report and one alert and returns.  The second conjunct shows the retry
wrapper is never applied to provisioning failures: a non-zero `setup.sh`
exit yields zero launches even with the same crashing traces pending. -/
theorem launch_retries_capped_at_five (s1 s2 s3 s4 s5 : List String)
    (h1 : ∃ n, run_janus_drain false 0 s1 = some (.raised n))
    (h2 : ∃ n, run_janus_drain false 0 s2 = some (.raised n))
    (h3 : ∃ n, run_janus_drain false 0 s3 = some (.raised n))
    (h4 : ∃ n, run_janus_drain false 0 s4 = some (.raised n))
    (h5 : ∃ n, run_janus_drain false 0 s5 = some (.raised n)) :
    run_janus_forever 0 false [s1, s2, s3, s4, s5]
      = some { launches := 5, crash_reports := 1, alerts := 1,
               warned_not_supported := false } ∧
    (∀ rc : Int, rc ≠ 0 → run_janus_forever rc false [s1, s2, s3, s4, s5]
      = some { launches := 0, crash_reports := 0, alerts := 0,
               warned_not_supported := true }) := by
  obtain ⟨n1, e1⟩ := h1
  obtain ⟨n2, e2⟩ := h2
  obtain ⟨n3, e3⟩ := h3
  obtain ⟨n4, e4⟩ := h4
  obtain ⟨n5, e5⟩ := h5
  refine ⟨?_, fun rc hrc => run_janus_forever_nonzero_setup rc hrc false _⟩
  have q1 : run_janus_retries false (0 + 1) [s5]
      = some (0 + 1, RunOutcome.raisedOut) := by
    rw [run_janus_retries_raised false 0 s5 [] n5 e5]
    rfl
  have q2 : run_janus_retries false (1 + 1) [s4, s5]
      = some (1 + 1, RunOutcome.raisedOut) := by
    rw [run_janus_retries_raised false 1 s4 [s5] n4 e4,
      show run_janus_retries false 1 [s5] = some (1, RunOutcome.raisedOut) from q1]
    rfl
  have q3 : run_janus_retries false (2 + 1) [s3, s4, s5]
      = some (2 + 1, RunOutcome.raisedOut) := by
    rw [run_janus_retries_raised false 2 s3 [s4, s5] n3 e3,
      show run_janus_retries false 2 [s4, s5] = some (2, RunOutcome.raisedOut) from q2]
    rfl
  have q4 : run_janus_retries false (3 + 1) [s2, s3, s4, s5]
      = some (3 + 1, RunOutcome.raisedOut) := by
    rw [run_janus_retries_raised false 3 s2 [s3, s4, s5] n2 e2,
      show run_janus_retries false 3 [s3, s4, s5]
        = some (3, RunOutcome.raisedOut) from q3]
    rfl
  have q5 : run_janus_retries false (4 + 1) [s1, s2, s3, s4, s5]
      = some (4 + 1, RunOutcome.raisedOut) := by
    rw [run_janus_retries_raised false 4 s1 [s2, s3, s4, s5] n1 e1,
      show run_janus_retries false 4 [s2, s3, s4, s5]
        = some (4, RunOutcome.raisedOut) from q4]
    rfl
  have r5 : run_janus_retries false 5 [s1, s2, s3, s4, s5]
      = some (5, RunOutcome.raisedOut) := q5
  unfold run_janus_forever
  rw [if_neg (by decide), r5]

/-- C8 witness: five launches each hitting immediate EOF. -/
theorem launch_retries_capped_at_five_witness :
    run_janus_forever 0 false [[""], [""], [""], [""], [""]]
      = some { launches := 5, crash_reports := 1, alerts := 1,
               warned_not_supported := false } :=
  (launch_retries_capped_at_five [""] [""] [""] [""] [""]
    ⟨0, rfl⟩ ⟨0, rfl⟩ ⟨0, rfl⟩ ⟨0, rfl⟩ ⟨0, rfl⟩).1
